import Mathlib

/-!
Verification of the interaction capture-and-replay core of the
live_presentation_tools repository (src/App.tsx, src/components/Canvas.tsx,
src/types.ts) against its natural-language specification.

Shallow-embedding conventions:
* TypeScript numbers that hold coordinates/scales are modelled as `ℚ`
  (exact arithmetic; the code performs only +, -, *, /, min, abs on them).
* `Math.hypot dx dy < d` is embedded as `dx * dx + dy * dy < d * d`,
  which is equivalent for exact arithmetic since both sides of the original
  comparison are nonnegative.
* `Date.now()` is nondeterministic and is passed in as an explicit id
  parameter wherever the source calls it.
* React state setters are modelled by explicit state passing: each event
  handler is a pure function from its inputs to the state change it performs.
* The continuous-replay effect's `animateStep` loop (App.tsx lines 199-261)
  is modelled at two levels.  `animateStep` is one run of the closure: the
  cancellation flag is an oracle `ℕ → Bool` read at each completed `sleep`;
  checks of the flag with no `await` between them read the same value
  (single-threaded event loop), which the model expresses by giving them the
  same time argument.  A full replay is more than one closure run: the
  effect's dependency array (line 261) contains `currentSlideIndex`, so the
  `setCurrentSlideIndex` issued by the loop itself (line 221) remounts the
  effect — cleanup sets the running closure's `isCancelled`, and a fresh
  instance resets all slides and restarts at step 0.  `instanceRun` models
  one such instance (proved equal to `animateStep` under the remount-induced
  oracle), and `replayRemounts` chains instances to model a whole
  operator-uncancelled replay.
-/

namespace LivePresentation

/-- `Tool` enum from src/types.ts. -/
inductive Tool where
  | none
  | pan_zoom
  | spotlight
deriving DecidableEq

/-- `CanvasTransform` from src/types.ts: `{ scale, x, y }`. -/
structure CanvasTransform where
  scale : ℚ
  x : ℚ
  y : ℚ
deriving DecidableEq

/-- The `type` discriminator of `SpotlightState` (`circle` or `rect`). -/
inductive SpotlightType where
  | circle
  | rect
deriving DecidableEq

/-- `SpotlightState` from src/types.ts. -/
structure SpotlightState where
  type : SpotlightType
  x : ℚ
  y : ℚ
  width : ℚ
  height : ℚ
  radius : ℚ
deriving DecidableEq

/-- The media kind of a slide (`image` or `video`). -/
inductive MediaType where
  | image
  | video
deriving DecidableEq

/-- `Slide` from src/types.ts. -/
structure Slide where
  id : ℤ
  mediaUrl : Option String
  mediaType : Option MediaType
  transform : CanvasTransform
  spotlight : Option SpotlightState
deriving DecidableEq

/-- The `toolState` field of a `ClickRecord`. -/
structure ToolState where
  transform : CanvasTransform
  spotlight : Option SpotlightState
deriving DecidableEq

/-- `ClickRecord` from src/types.ts. -/
structure ClickRecord where
  id : ℤ
  slideIndex : ℕ
  x : ℚ
  y : ℚ
  toolState : ToolState
deriving DecidableEq

/-- The transient replay cursor `{x, y, slideIndex}` of App.tsx. -/
structure ReplayCursor where
  x : ℚ
  y : ℚ
  slideIndex : ℕ
deriving DecidableEq

/-- The React state of the `App` component (src/App.tsx lines 26-38). -/
structure AppState where
  activeTool : Tool
  isCapturing : Bool
  slides : List Slide
  currentSlideIndex : ℕ
  clickSequence : List ClickRecord
  isPlaying : Bool
  isStepping : Bool
  currentStep : ℕ
  replayCursor : Option ReplayCursor
deriving DecidableEq

/-- A container-space point, as produced by `getClickCoords`. -/
structure Point where
  x : ℚ
  y : ℚ
deriving DecidableEq

/-- `INITIAL_TRANSFORM` constant (App.tsx line 16, Canvas.tsx line 27). -/
def INITIAL_TRANSFORM : CanvasTransform := { scale := 1, x := 0, y := 0 }

/-- `createEmptySlide` (App.tsx lines 17-23); `Date.now()` is the `id` argument. -/
def createEmptySlide (id : ℤ) : Slide :=
  { id := id, mediaUrl := Option.none, mediaType := Option.none,
    transform := INITIAL_TRANSFORM, spotlight := Option.none }

/-- `CIRCLE_RADIUS` constant (Canvas.tsx line 28). -/
def CIRCLE_RADIUS : ℚ := 60

/-- `ZOOM_FACTOR` constant (Canvas.tsx line 29): 1.5. -/
def ZOOM_FACTOR : ℚ := 3 / 2

/-- `DRAG_THRESHOLD` constant (Canvas.tsx line 30): 10 pixels. -/
def DRAG_THRESHOLD : ℚ := 10

/-- Squared Euclidean distance between two points.  Used to embed
`Math.hypot (p.x - q.x) (p.y - q.y) < d` as `sqDist p q < d * d`. -/
def sqDist (p q : Point) : ℚ :=
  (p.x - q.x) * (p.x - q.x) + (p.y - q.y) * (p.y - q.y)

/-- The pan/zoom computation of `handleCanvasClick` (Canvas.tsx lines 71-77):
given the current transform, the click point and the container size, produce
the zoomed transform. -/
def zoomAt (current : CanvasTransform) (pointContainer : Point)
    (width height : ℚ) : CanvasTransform :=
  let newScale := current.scale * ZOOM_FACTOR
  let imgX := (pointContainer.x - current.x) / current.scale
  let imgY := (pointContainer.y - current.y) / current.scale
  { scale := newScale, x := width / 2 - imgX * newScale,
    y := height / 2 - imgY * newScale }

/-- Mapping from container coordinates to image-local coordinates under a
transform (spec section 3: `((px - x) / scale, (py - y) / scale)`). -/
def imageLocal (t : CanvasTransform) (p : Point) : Point :=
  { x := (p.x - t.x) / t.scale, y := (p.y - t.y) / t.scale }

/-- Mapping from image-local coordinates back to container coordinates under a
transform: the inverse direction of `imageLocal`. -/
def toContainer (t : CanvasTransform) (p : Point) : Point :=
  { x := t.x + p.x * t.scale, y := t.y + p.y * t.scale }

/-- `Partial<Slide>` as used by `updateSlideState`: an absent field leaves the
slide's field untouched, a present field overwrites it (TypeScript object
spread `{ ...slideToUpdate, ...updates }`). -/
structure SlideUpdates where
  id : Option ℤ := Option.none
  mediaUrl : Option (Option String) := Option.none
  mediaType : Option (Option MediaType) := Option.none
  transform : Option CanvasTransform := Option.none
  spotlight : Option (Option SpotlightState) := Option.none
deriving DecidableEq

/-- `{ ...slideToUpdate, ...updates }`: fields present in `updates` win. -/
def applySlideUpdates (s : Slide) (u : SlideUpdates) : Slide :=
  { id := u.id.getD s.id,
    mediaUrl := u.mediaUrl.getD s.mediaUrl,
    mediaType := u.mediaType.getD s.mediaType,
    transform := u.transform.getD s.transform,
    spotlight := u.spotlight.getD s.spotlight }

/-- `updateSlideState` (App.tsx lines 96-108): copy the slide list, and if the
index holds a slide, replace it by the merged slide; otherwise return the list
unchanged. -/
def updateSlideState (slides : List Slide) (slideIndex : ℕ)
    (updates : SlideUpdates) : List Slide :=
  match slides[slideIndex]? with
  | Option.none => slides
  | Option.some slideToUpdate =>
      slides.set slideIndex (applySlideUpdates slideToUpdate updates)

/-- `handleRecordClick` (App.tsx lines 110-127); `Date.now()` is `newId`. -/
def handleRecordClick (s : AppState) (newId : ℤ) (x y : ℚ)
    (transform : CanvasTransform) (spotlight : Option SpotlightState) :
    AppState :=
  if s.isCapturing = false then s
  else
    { s with clickSequence := s.clickSequence ++
        [{ id := newId, slideIndex := s.currentSlideIndex, x := x, y := y,
           toolState := { transform := transform, spotlight := spotlight } }] }

/-- `handleReplay` (App.tsx lines 129-133): start continuous replay only when
the click sequence is non-empty and `isPlaying` is false. -/
def handleReplay (s : AppState) : AppState :=
  if 0 < s.clickSequence.length ∧ s.isPlaying = false then
    { s with isPlaying := true }
  else s

/-- Reset a slide's visual state to identity transform and no spotlight
(the `prev.map` bodies at App.tsx lines 140-146 and 249-255). -/
def resetSlideVisual (slide : Slide) : Slide :=
  { slide with transform := INITIAL_TRANSFORM, spotlight := Option.none }

/-- `handleStepReplay` (App.tsx lines 135-148): start stepped replay only when
the click sequence is non-empty and `isStepping` is false; on start, reset the
step index to 0 and every slide's visual state. -/
def handleStepReplay (s : AppState) : AppState :=
  if 0 < s.clickSequence.length ∧ s.isStepping = false then
    { s with isStepping := true, currentStep := 0,
             slides := s.slides.map resetSlideVisual }
  else s

/-- `handleFullReset` (App.tsx lines 167-177); `Date.now()` inside
`createEmptySlide` is `newId`.  Note the source sets `isPlaying` to false but
does not touch `isStepping`, `currentStep` or `replayCursor`. -/
def handleFullReset (s : AppState) (newId : ℤ) : AppState :=
  { s with slides := [createEmptySlide newId], currentSlideIndex := 0,
           clickSequence := [], isPlaying := false,
           activeTool := Tool.none, isCapturing := false }

/-- The arguments of an `onRecordClick` call issued by the Canvas. -/
structure RecordArgs where
  x : ℚ
  y : ℚ
  transform : CanvasTransform
  spotlight : Option SpotlightState
deriving DecidableEq

/-- The state changes a Canvas event handler requests: calls to
`onTransformChange`, `onSpotlightChange`, `onRecordClick`, `setIsDragging`
and `setDragStart` (at most one each per handler in the source). -/
structure CanvasEffects where
  transformChange : Option CanvasTransform := Option.none
  spotlightChange : Option (Option SpotlightState) := Option.none
  recordRequest : Option RecordArgs := Option.none
  setDragging : Option Bool := Option.none
  setDragStart : Option Point := Option.none
deriving DecidableEq

/-- A handler run that requests no state change at all. -/
def noEffects : CanvasEffects := {}

/-- `handleCanvasClick` (Canvas.tsx lines 65-85). -/
def handleCanvasClick (detail : ℕ) (isPlaying : Bool) (activeTool : Tool)
    (isCapturing : Bool) (transform : CanvasTransform) (click : Point)
    (width height : ℚ) : CanvasEffects :=
  if detail ≠ 1 ∨ isPlaying = true ∨ activeTool = Tool.spotlight then noEffects
  else if activeTool = Tool.pan_zoom then
    let nextTransform := zoomAt transform click width height
    { transformChange := Option.some nextTransform,
      spotlightChange := Option.some Option.none,
      recordRequest :=
        if isCapturing then
          Option.some { x := click.x, y := click.y,
                        transform := nextTransform, spotlight := Option.none }
        else Option.none }
  else
    { recordRequest :=
        if isCapturing then
          Option.some { x := click.x, y := click.y,
                        transform := transform, spotlight := Option.none }
        else Option.none }

/-- `handleDoubleClick` (Canvas.tsx lines 114-118): unless playing, reset the
view (identity transform, no spotlight) via `resetView`. -/
def handleDoubleClick (isPlaying : Bool) : CanvasEffects :=
  if isPlaying = true then noEffects
  else { transformChange := Option.some INITIAL_TRANSFORM,
         spotlightChange := Option.some Option.none }

/-- `handleMouseDown` (Canvas.tsx lines 133-138). -/
def handleMouseDown (isPlaying : Bool) (activeTool : Tool) (pos : Point) :
    CanvasEffects :=
  if isPlaying = true ∨ activeTool ≠ Tool.spotlight then noEffects
  else { setDragging := Option.some true, setDragStart := Option.some pos }

/-- `handleMouseMove` (Canvas.tsx lines 140-157): live spotlight preview. -/
def handleMouseMove (isDragging : Bool) (activeTool : Tool) (isPlaying : Bool)
    (dragStart currentPos : Point) : CanvasEffects :=
  if isDragging = false ∨ activeTool ≠ Tool.spotlight ∨ isPlaying = true then
    noEffects
  else if sqDist currentPos dragStart < DRAG_THRESHOLD * DRAG_THRESHOLD then
    { spotlightChange := Option.some Option.none }
  else
    { spotlightChange := Option.some (Option.some
        { type := SpotlightType.rect,
          x := min dragStart.x currentPos.x, y := min dragStart.y currentPos.y,
          width := |dragStart.x - currentPos.x|,
          height := |dragStart.y - currentPos.y|, radius := 0 }) }

/-- The committed spotlight computed by `handleMouseUp`
(Canvas.tsx lines 164-183). -/
def spotlightOnMouseUp (dragStart endPos : Point) : SpotlightState :=
  if sqDist endPos dragStart < DRAG_THRESHOLD * DRAG_THRESHOLD then
    { type := SpotlightType.circle, x := endPos.x, y := endPos.y,
      radius := CIRCLE_RADIUS, width := 0, height := 0 }
  else
    { type := SpotlightType.rect,
      x := min dragStart.x endPos.x, y := min dragStart.y endPos.y,
      width := |dragStart.x - endPos.x|, height := |dragStart.y - endPos.y|,
      radius := 0 }

/-- `handleMouseUp` (Canvas.tsx lines 159-190). -/
def handleMouseUp (isDragging : Bool) (activeTool : Tool) (isCapturing : Bool)
    (transform : CanvasTransform) (dragStart endPos : Point) : CanvasEffects :=
  if isDragging = false ∨ activeTool ≠ Tool.spotlight then
    if isDragging then { setDragging := Option.some false } else noEffects
  else
    let finalSpotlight := spotlightOnMouseUp dragStart endPos
    { spotlightChange := Option.some (Option.some finalSpotlight),
      recordRequest :=
        if isCapturing then
          Option.some { x := endPos.x, y := endPos.y, transform := transform,
                        spotlight := Option.some finalSpotlight }
        else Option.none,
      setDragging := Option.some false }

/-- How App.tsx wires a Canvas handler run for slide `slideIndex` back into the
app state (lines 301-313): `onTransformChange`/`onSpotlightChange` go through
`updateSlideState`, `onRecordClick` goes through `handleRecordClick`.
The drag-state fields are Canvas-local and do not touch `AppState`. -/
def applyCanvasEffects (s : AppState) (slideIndex : ℕ) (newId : ℤ)
    (e : CanvasEffects) : AppState :=
  let s1 :=
    match e.transformChange with
    | Option.none => s
    | Option.some t =>
        let u : SlideUpdates := { transform := Option.some t }
        { s with slides := updateSlideState s.slides slideIndex u }
  let s2 :=
    match e.spotlightChange with
    | Option.none => s1
    | Option.some sp =>
        let u : SlideUpdates := { spotlight := Option.some sp }
        { s1 with slides := updateSlideState s1.slides slideIndex u }
  match e.recordRequest with
  | Option.none => s2
  | Option.some r => handleRecordClick s2 newId r.x r.y r.transform r.spotlight

/-- One `updateSlideState` mutation issued by the continuous-replay loop
(App.tsx lines 236-239): the record's slide index and its captured
transform/spotlight pair. -/
structure AppliedUpdate where
  slideIndex : ℕ
  transform : CanvasTransform
  spotlight : Option SpotlightState
deriving DecidableEq

/-- The mutation a replayed `ClickRecord` requests. -/
def recordUpdate (r : ClickRecord) : AppliedUpdate :=
  { slideIndex := r.slideIndex, transform := r.toolState.transform,
    spotlight := r.toolState.spotlight }

/-- One run of the `animateStep` loop of the continuous-replay effect
(App.tsx lines 211-246), returning the ordered list of Slide State Store
mutations it applies.  `isCancelled` is the cancellation flag as an oracle
over time, where time counts completed `sleep`s of this effect instance
(the 50 ms settle sleep is time step 0, so the loop starts at time 1);
`capturedSlideIndex` is the `currentSlideIndex` value captured by the
closure.  Per record: top-of-loop check; optional slide-switch sleep (500 ms);
check; cursor sleep (800 ms); check; apply the mutation; post-apply sleep
(400 ms); check; recurse.  Checks with no `await` between them read the
oracle at the same time.  This models one effect instance only: a slide
switch remounts the effect (dependency array, line 261), cancelling this
closure — the whole-replay model is `replayRemounts` below. -/
def animateStep (isCancelled : ℕ → Bool) (capturedSlideIndex : ℕ) :
    List ClickRecord → ℕ → List AppliedUpdate
  | [], _ => []
  | record :: rest, t =>
    if isCancelled t then []
    else
      let t1 := if record.slideIndex ≠ capturedSlideIndex then t + 1 else t
      if isCancelled t1 then []
      else if isCancelled (t1 + 1) then []
      else if isCancelled (t1 + 2) then [recordUpdate record]
      else recordUpdate record ::
        animateStep isCancelled capturedSlideIndex rest (t1 + 2)

/-- Apply one replay mutation through the Slide State Store
(`updateSlideState` with `{ transform, spotlight }`, App.tsx lines 236-239). -/
def applyUpdate (slides : List Slide) (u : AppliedUpdate) : List Slide :=
  let upd : SlideUpdates :=
    { transform := Option.some u.transform,
      spotlight := Option.some (u.spotlight) }
  updateSlideState slides u.slideIndex upd

/-- Fold a list of replay mutations through the Slide State Store. -/
def applyReplayUpdates (slides : List Slide) (us : List AppliedUpdate) :
    List Slide :=
  us.foldl applyUpdate slides

/-- The never-true cancellation oracle: an uncancelled replay. -/
def neverCancelled : ℕ → Bool := fun _ => false

/-- Sample transform used in concrete witness instances. -/
def sampleTransform : CanvasTransform := { scale := 3 / 2, x := -20, y := -10 }

/-- Sample click record used in concrete witness instances. -/
def sampleRecord : ClickRecord :=
  { id := 1, slideIndex := 0, x := 100, y := 50,
    toolState := { transform := sampleTransform, spotlight := Option.none } }

/-- Sample spotlight used in concrete witness instances. -/
def exSpot : SpotlightState :=
  { type := SpotlightType.circle, x := 1, y := 2, width := 0, height := 0,
    radius := 60 }

/-- Sample slide (currently zoomed, with a spotlight) for concrete instances. -/
def exSlide : Slide :=
  { id := 0, mediaUrl := Option.none, mediaType := Option.none,
    transform := { scale := 2, x := 3, y := 4 },
    spotlight := Option.some exSpot }

/-- Sample app state: capture mode on, tool None, one slide `exSlide`. -/
def exState : AppState :=
  { activeTool := Tool.none, isCapturing := true, slides := [exSlide],
    currentSlideIndex := 0, clickSequence := [], isPlaying := false,
    isStepping := false, currentStep := 0, replayCursor := Option.none }

/-- The always-true cancellation oracle: cancelled from the start. -/
def alwaysCancelled : ℕ → Bool := fun _ => true

/-- Sample app state in which a stepped replay is active and one click is
recorded. -/
def exStateStepping : AppState :=
  { exState with isStepping := true, clickSequence := [sampleRecord] }

/-- Sample app state with one recorded click and no replay active. -/
def exSeqState : AppState :=
  { exState with clickSequence := [sampleRecord] }

/-- Sample partial slide update carrying only a transform. -/
def exUpdates : SlideUpdates := { transform := Option.some INITIAL_TRANSFORM }

/-- Cancellation oracle that reads false strictly before time `t0` and true
from `t0` on; `none` is the never-cancelled oracle. -/
def cancelledAt : Option ℕ → ℕ → Bool
  | Option.none, _ => false
  | Option.some t0, u => decide (t0 ≤ u)

/-- Time of the check that follows the 500 ms slide-transition sleep of the
first record whose `slideIndex` differs from the captured index, when the
loop enters at time `t` (records on the captured slide consume two sleeps
each).  This is the boundary at which the React remount cancels the running
effect instance: `setCurrentSlideIndex` (App.tsx line 221) changes a value
listed in the effect's dependency array (line 261), so React runs the cleanup
(lines 258-260), setting the closure's `isCancelled` while it awaits the
slide-transition sleep.  `none` when every record lies on the captured
slide. -/
def switchTime (capturedIdx : ℕ) : List ClickRecord → ℕ → Option ℕ
  | [], _ => Option.none
  | r :: rest, t =>
      if r.slideIndex ≠ capturedIdx then Option.some (t + 1)
      else switchTime capturedIdx rest (t + 2)

/-- One effect instance of a Continuous replay under React's dependency-array
semantics: the instance applies, in order, the records that lie on its
captured slide index; the first record on a different slide triggers
`setCurrentSlideIndex` and therefore the remount described at `switchTime`,
so the instance applies nothing further.  The second component is the slide
index the next instance captures, or `none` when the loop ran off the end of
the sequence and set `isPlaying` to false.  The theorem
`instanceRun_is_closure_run` proves this equal to the literal closure model
`animateStep` under the oracle `cancelledAt (switchTime ...)`. -/
def instanceRun (capturedIdx : ℕ) :
    List ClickRecord → List AppliedUpdate × Option ℕ
  | [] => ([], Option.none)
  | r :: rest =>
      if r.slideIndex ≠ capturedIdx then ([], Option.some r.slideIndex)
      else
        let p := instanceRun capturedIdx rest
        (recordUpdate r :: p.1, p.2)

/-- A full Continuous replay with the operator never cancelling, as the chain
of effect instances produced by the remount on every `currentSlideIndex`
change (App.tsx line 261): each new instance re-resets every slide
(lines 249-255) and restarts the loop at step 0 with the newly captured slide
index.  `fuel` bounds the number of instances examined; the first component
concatenates the Slide State Store mutations of all instances, the second is
whether the replay finished (reached `setIsPlaying(false)`) within that many
instances. -/
def replayRemounts : ℕ → ℕ → List ClickRecord → List AppliedUpdate × Bool
  | 0, _, _ => ([], false)
  | fuel + 1, capturedIdx, seq =>
      let p := instanceRun capturedIdx seq
      match p.2 with
      | Option.none => (p.1, true)
      | Option.some j =>
          let q := replayRemounts fuel j seq
          (p.1 ++ q.1, q.2)

/-- Failing-input record on slide 0. -/
def recA : ClickRecord :=
  { id := 1, slideIndex := 0, x := 100, y := 50,
    toolState := { transform := { scale := 2, x := -20, y := -10 },
                   spotlight := Option.none } }

/-- Failing-input record on slide 1. -/
def recB : ClickRecord :=
  { id := 2, slideIndex := 1, x := 200, y := 80,
    toolState := { transform := { scale := 3, x := 0, y := 0 },
                   spotlight := Option.some exSpot } }

/-- The failing input for the Continuous-replay ordering claim: a recorded
sequence whose records lie on two different slides. -/
def failingSeq : List ClickRecord := [recA, recB]

section Theorems

/-- Helper: an uncancelled `animateStep` run applies one mutation per record,
in order. -/
theorem animateStep_never (capturedIdx : ℕ) :
    ∀ (seq : List ClickRecord) (t : ℕ),
      animateStep neverCancelled capturedIdx seq t = seq.map recordUpdate := by
  intro seq
  induction seq with
  | nil => intro t; rfl
  | cons r rest ih =>
      intro t
      simp [animateStep, neverCancelled, ih]

/-- Helper: restricting the per-record mutation list to one slide index and
projecting the applied pair commutes with doing the same on the records. -/
theorem map_recordUpdate_filter (j : ℕ) :
    ∀ seq : List ClickRecord,
      ((seq.map recordUpdate).filter (fun u => u.slideIndex == j)).map
          (fun u => (u.transform, u.spotlight))
        = (seq.filter (fun r => r.slideIndex == j)).map
            (fun r => (r.toolState.transform, r.toolState.spotlight)) := by
  intro seq
  induction seq with
  | nil => rfl
  | cons r rest ih =>
      by_cases hj : (r.slideIndex == j) = true
      · simp only [List.map_cons, List.filter_cons]
        rw [show (recordUpdate r).slideIndex = r.slideIndex from rfl, hj]
        simp only [if_true, List.map_cons, ih]
        rfl
      · simp only [List.map_cons, List.filter_cons]
        rw [show (recordUpdate r).slideIndex = r.slideIndex from rfl,
          Bool.not_eq_true] at *
        rw [hj]
        simpa using ih

/-- Helper: any cancelled or uncancelled `animateStep` run applies a prefix of
the per-record mutation list: whole steps only, never a partial or reordered
application. -/
theorem animateStep_take (c : ℕ → Bool) (idx : ℕ) :
    ∀ (seq : List ClickRecord) (t : ℕ),
      ∃ k, animateStep c idx seq t = (seq.map recordUpdate).take k := by
  intro seq
  induction seq with
  | nil => intro t; exact ⟨0, rfl⟩
  | cons r rest ih =>
      intro t
      simp only [animateStep]
      by_cases h0 : c t = true
      · refine ⟨0, ?_⟩; rw [if_pos h0]; rfl
      · by_cases h1 : c (if r.slideIndex ≠ idx then t + 1 else t) = true
        · refine ⟨0, ?_⟩; rw [if_neg h0, if_pos h1]; rfl
        · by_cases h2 : c ((if r.slideIndex ≠ idx then t + 1 else t) + 1) = true
          · refine ⟨0, ?_⟩; rw [if_neg h0, if_neg h1, if_pos h2]; rfl
          · by_cases h3 : c ((if r.slideIndex ≠ idx then t + 1 else t) + 2) = true
            · refine ⟨1, ?_⟩; rw [if_neg h0, if_neg h1, if_neg h2, if_pos h3]
              rfl
            · obtain ⟨k, hk⟩ :=
                ih ((if r.slideIndex ≠ idx then t + 1 else t) + 2)
              refine ⟨k + 1, ?_⟩
              rw [if_neg h0, if_neg h1, if_neg h2, if_neg h3, hk]
              rfl

/-- Helper: per-instance order preservation.  One run of the `animateStep`
closure whose cancellation flag never fires applies one Slide State Store
mutation per record, in append order; restricted to any slide the applied
pairs are that slide's records' captured pairs in order.  This covers only a
closure run that is never remounted — a full Continuous replay is the chain
`replayRemounts` of such runs, and the remount breaks this ordering for
slide-switching sequences (see the divergence theorem below). -/
theorem continuous_replay_order_preserving (seq : List ClickRecord)
    (capturedIdx j t : ℕ) (slides : List Slide) :
    animateStep neverCancelled capturedIdx seq t = seq.map recordUpdate ∧
    ((animateStep neverCancelled capturedIdx seq t).filter
        (fun u => u.slideIndex == j)).map (fun u => (u.transform, u.spotlight))
      = (seq.filter (fun r => r.slideIndex == j)).map
          (fun r => (r.toolState.transform, r.toolState.spotlight)) ∧
    applyReplayUpdates slides (animateStep neverCancelled capturedIdx seq t)
      = applyReplayUpdates slides (seq.map recordUpdate) := by
  refine ⟨animateStep_never capturedIdx seq t, ?_, ?_⟩
  · rw [animateStep_never capturedIdx seq t]
    exact map_recordUpdate_filter j seq
  · rw [animateStep_never capturedIdx seq t]

/-- Helper: the remount boundary computed by `switchTime` lies strictly after
the loop's entry time. -/
theorem switchTime_lower (i : ℕ) :
    ∀ (seq : List ClickRecord) (t t0 : ℕ),
      switchTime i seq t = Option.some t0 → t + 1 ≤ t0 := by
  intro seq
  induction seq with
  | nil => intro t t0 h; exact absurd h (by simp [switchTime])
  | cons r rest ih =>
      intro t t0 h
      by_cases hr : r.slideIndex ≠ i
      · simp only [switchTime, if_pos hr, Option.some.injEq] at h
        omega
      · simp only [switchTime, if_neg hr] at h
        have := ih (t + 2) t0 h
        omega

/-- Helper: `instanceRun` is exactly the `animateStep` closure run under the
cancellation oracle that fires at the remount boundary (`switchTime`): the
records on the captured slide are applied in order and the record that
triggers the slide switch is cancelled at its post-switch check, applying
nothing. -/
theorem instanceRun_is_closure_run (i : ℕ) :
    ∀ (seq : List ClickRecord) (t : ℕ),
      animateStep (cancelledAt (switchTime i seq t)) i seq t
        = (instanceRun i seq).1 := by
  intro seq
  induction seq with
  | nil => intro t; rfl
  | cons r rest ih =>
      intro t
      by_cases hr : r.slideIndex ≠ i
      · have hst : switchTime i (r :: rest) t = Option.some (t + 1) := by
          simp only [switchTime, if_pos hr]
        have h0 : ¬(cancelledAt (switchTime i (r :: rest) t) t = true) := by
          rw [hst]
          simp only [cancelledAt, decide_eq_true_eq]
          omega
        have h1 : cancelledAt (switchTime i (r :: rest) t) (t + 1) = true := by
          rw [hst]
          simp [cancelledAt]
        simp only [animateStep, instanceRun, if_pos hr]
        rw [if_neg h0, if_pos h1]
      · have hst : switchTime i (r :: rest) t = switchTime i rest (t + 2) := by
          simp only [switchTime, if_neg hr]
        have hc : ∀ u, u ≤ t + 2 →
            ¬(cancelledAt (switchTime i (r :: rest) t) u = true) := by
          intro u hu
          rw [hst]
          cases ho : switchTime i rest (t + 2) with
          | none => simp [cancelledAt]
          | some t0 =>
              have hlow := switchTime_lower i rest (t + 2) t0 ho
              simp only [cancelledAt, decide_eq_true_eq]
              omega
        simp only [animateStep, instanceRun, if_neg hr]
        rw [if_neg (hc t (by omega)), if_neg (hc t (by omega)),
          if_neg (hc (t + 1) (by omega)), if_neg (hc (t + 2) (by omega))]
        rw [hst, ih (t + 2)]

/-- Helper: at the failing input, the replay ping-pongs between captured
slide indices 0 and 1 forever: with any remount fuel, starting from either
index, the replay has not finished and `recB`'s mutation has never been
applied. -/
theorem failing_replay_aux (fuel : ℕ) :
    (replayRemounts fuel 0 failingSeq).2 = false ∧
    (replayRemounts fuel 1 failingSeq).2 = false ∧
    recordUpdate recB ∉ (replayRemounts fuel 0 failingSeq).1 ∧
    recordUpdate recB ∉ (replayRemounts fuel 1 failingSeq).1 := by
  induction fuel with
  | zero => refine ⟨rfl, rfl, ?_, ?_⟩ <;> simp [replayRemounts]
  | succ n ih =>
      obtain ⟨h0, h1, h2, h3⟩ := ih
      have hA : instanceRun 0 failingSeq
          = ([recordUpdate recA], Option.some 1) := rfl
      have hB : instanceRun 1 failingSeq = ([], Option.some 0) := rfl
      have hne : recordUpdate recB ≠ recordUpdate recA := by
        intro hco
        have hsl := congrArg AppliedUpdate.slideIndex hco
        simp [recordUpdate, recA, recB] at hsl
      refine ⟨?_, ?_, ?_, ?_⟩
      · simp only [replayRemounts, hA]
        exact h1
      · simp only [replayRemounts, hB]
        exact h0
      · simp only [replayRemounts, hA, List.cons_append, List.nil_append,
          List.mem_cons, not_or]
        exact ⟨hne, h3⟩
      · simp only [replayRemounts, hB, List.nil_append]
        exact h2

/-- Claim C1 describes the intended behavior, but the code has a slip: the
replay effect lists `currentSlideIndex` in its dependency array
(App.tsx line 261), so every `setCurrentSlideIndex` issued by the loop itself
(line 221) remounts the effect, which resets all slides and restarts
`animateStep` at step 0.  Evaluated at the failing input `failingSeq`
(`recA` on slide 0, `recB` on slide 1), replay started with slide 0 displayed
and the operator never cancelling: for every number of effect instances the
replay has not finished and `recB`'s captured pair has never been applied —
slide 1's applied sequence stays empty although the claim requires it to be
exactly `recB`'s captured pair — while `recA`'s pair is re-applied three
times within the first five instances. -/
theorem continuous_replay_remount_divergence :
    (∀ fuel : ℕ, (replayRemounts fuel 0 failingSeq).2 = false ∧
       recordUpdate recB ∉ (replayRemounts fuel 0 failingSeq).1) ∧
    (replayRemounts 5 0 failingSeq).1
      = [recordUpdate recA, recordUpdate recA, recordUpdate recA] ∧
    ((replayRemounts 5 0 failingSeq).1.filter
        (fun u => u.slideIndex == 1)).map (fun u => (u.transform, u.spotlight))
      = [] ∧
    (failingSeq.filter (fun r => r.slideIndex == 1)).map
        (fun r => (r.toolState.transform, r.toolState.spotlight))
      = [(recB.toolState.transform, recB.toolState.spotlight)] := by
  refine ⟨fun fuel => ⟨(failing_replay_aux fuel).1,
    (failing_replay_aux fuel).2.2.1⟩, rfl, rfl, rfl⟩

/-- Claim C2: if the cancellation flag is on at the delay boundary just before
a step's apply point (the check after the 800 ms cursor sleep, at time
`t1 + 1` where `t1` accounts for the optional slide-switch sleep), the step in
flight applies no mutation and schedules nothing further — the run returns the
empty trace even though the top-of-loop check may have passed.  Moreover any
run, under any cancellation oracle, applies a prefix of the full per-record
mutation list: whole steps only, so no cancelled-in-flight step ever
contributes a mutation. -/
theorem continuous_replay_cancellation (capturedIdx t : ℕ)
    (isCancelled : ℕ → Bool) (record : ClickRecord) (rest : List ClickRecord)
    (hc : isCancelled
        ((if record.slideIndex ≠ capturedIdx then t + 1 else t) + 1) = true) :
    animateStep isCancelled capturedIdx (record :: rest) t = [] ∧
    ∀ (c : ℕ → Bool) (seq : List ClickRecord) (u : ℕ),
      ∃ k, animateStep c capturedIdx seq u = (seq.map recordUpdate).take k := by
  constructor
  · simp only [animateStep]
    by_cases h0 : isCancelled t = true
    · rw [if_pos h0]
    · by_cases h1 :
        isCancelled (if record.slideIndex ≠ capturedIdx then t + 1 else t)
          = true
      · rw [if_neg h0, if_pos h1]
      · rw [if_neg h0, if_neg h1, if_pos hc]
  · intro c seq u
    exact animateStep_take c capturedIdx seq u

/-- Witness for C2 at a concrete input: the oracle that is already true at
every boundary, one recorded click, captured slide index 0, start time 1. -/
theorem continuous_replay_cancellation_witness :
    alwaysCancelled
        ((if sampleRecord.slideIndex ≠ 0 then 1 + 1 else 1) + 1) = true ∧
    (animateStep alwaysCancelled 0 [sampleRecord] 1 = [] ∧
     ∀ (c : ℕ → Bool) (seq : List ClickRecord) (u : ℕ),
       ∃ k, animateStep c 0 seq u = (seq.map recordUpdate).take k) :=
  ⟨rfl, continuous_replay_cancellation 0 1 alwaysCancelled sampleRecord [] rfl⟩

/-- Claim C3 is false as stated: `zoomAt` does not keep the image-local point
under the click at the same container position.  Concrete counterexample:
identity transform (scale 1 > 0), click at the container origin of a 100x100
container — before the zoom the clicked image point sits at container (0,0),
after the zoom it sits at the container midpoint (50,50). -/
theorem zoomAt_not_position_preserving :
    (0 : ℚ) < INITIAL_TRANSFORM.scale ∧
    toContainer (zoomAt INITIAL_TRANSFORM (Point.mk 0 0) 100 100)
        (imageLocal INITIAL_TRANSFORM (Point.mk 0 0)) ≠ Point.mk 0 0 := by
  constructor
  · norm_num [INITIAL_TRANSFORM]
  · norm_num [toContainer, zoomAt, imageLocal, INITIAL_TRANSFORM, ZOOM_FACTOR,
      Point.mk.injEq]

/-- Claim C3 amended: `zoomAt` multiplies the scale by the fixed factor and
re-centers the image-local point that lay under the click at the container's
midpoint (not at the click's own container position). -/
theorem zoomAt_centers_click_at_midpoint (t : CanvasTransform) (click : Point)
    (width height : ℚ) (_hscale : 0 < t.scale) :
    toContainer (zoomAt t click width height) (imageLocal t click)
      = Point.mk (width / 2) (height / 2) ∧
    (zoomAt t click width height).scale = t.scale * ZOOM_FACTOR := by
  constructor
  · simp only [toContainer, zoomAt, imageLocal, Point.mk.injEq]
    constructor <;> ring
  · rfl

/-- Witness for the amended C3 at a concrete input: identity transform,
click (20,30), container 100x80. -/
theorem zoomAt_centers_click_at_midpoint_witness :
    (0 : ℚ) < INITIAL_TRANSFORM.scale ∧
    (toContainer (zoomAt INITIAL_TRANSFORM (Point.mk 20 30) 100 80)
        (imageLocal INITIAL_TRANSFORM (Point.mk 20 30))
      = Point.mk (100 / 2) (80 / 2) ∧
     (zoomAt INITIAL_TRANSFORM (Point.mk 20 30) 100 80).scale
      = INITIAL_TRANSFORM.scale * ZOOM_FACTOR) :=
  ⟨by norm_num [INITIAL_TRANSFORM],
   zoomAt_centers_click_at_midpoint INITIAL_TRANSFORM (Point.mk 20 30) 100 80
     (by norm_num [INITIAL_TRANSFORM])⟩

/-- Claim C4: under the Spotlight tool, a pointer-up whose squared distance
from the pointer-down is below the squared drag threshold commits a Circle of
radius 60 centered at the up-point; otherwise it commits a Rect whose corner
is the component-wise minimum of the two points and whose size is the
component-wise absolute difference. -/
theorem spotlight_commit_tap_or_drag (d u dd uu : Point) (isCapturing : Bool)
    (tr : CanvasTransform)
    (h1 : sqDist u d < DRAG_THRESHOLD * DRAG_THRESHOLD)
    (h2 : ¬ sqDist uu dd < DRAG_THRESHOLD * DRAG_THRESHOLD) :
    (handleMouseUp true Tool.spotlight isCapturing tr d u).spotlightChange
      = Option.some (Option.some
          (SpotlightState.mk SpotlightType.circle u.x u.y 0 0 60)) ∧
    (handleMouseUp true Tool.spotlight isCapturing tr dd uu).spotlightChange
      = Option.some (Option.some
          (SpotlightState.mk SpotlightType.rect (min dd.x uu.x) (min dd.y uu.y)
            |dd.x - uu.x| |dd.y - uu.y| 0)) := by
  constructor
  · simp [handleMouseUp, spotlightOnMouseUp, h1, CIRCLE_RADIUS]
  · simp [handleMouseUp, spotlightOnMouseUp, h2]

/-- Witness for C4 at concrete inputs: a 5 px tap gives the fixed circle,
a 50 px drag gives the normalized rectangle. -/
theorem spotlight_commit_tap_or_drag_witness :
    sqDist (Point.mk 3 4) (Point.mk 0 0)
        < DRAG_THRESHOLD * DRAG_THRESHOLD ∧
    ¬ sqDist (Point.mk 30 40) (Point.mk 0 0)
        < DRAG_THRESHOLD * DRAG_THRESHOLD ∧
    ((handleMouseUp true Tool.spotlight true INITIAL_TRANSFORM (Point.mk 0 0)
          (Point.mk 3 4)).spotlightChange
      = Option.some (Option.some
          (SpotlightState.mk SpotlightType.circle (Point.mk 3 4).x
            (Point.mk 3 4).y 0 0 60)) ∧
     (handleMouseUp true Tool.spotlight true INITIAL_TRANSFORM (Point.mk 0 0)
          (Point.mk 30 40)).spotlightChange
      = Option.some (Option.some
          (SpotlightState.mk SpotlightType.rect
            (min (Point.mk 0 0).x (Point.mk 30 40).x)
            (min (Point.mk 0 0).y (Point.mk 30 40).y)
            |(Point.mk 0 0).x - (Point.mk 30 40).x|
            |(Point.mk 0 0).y - (Point.mk 30 40).y| 0))) :=
  ⟨by norm_num [sqDist, DRAG_THRESHOLD], by norm_num [sqDist, DRAG_THRESHOLD],
   spotlight_commit_tap_or_drag (Point.mk 0 0) (Point.mk 3 4) (Point.mk 0 0)
     (Point.mk 30 40) true INITIAL_TRANSFORM
     (by norm_num [sqDist, DRAG_THRESHOLD])
     (by norm_num [sqDist, DRAG_THRESHOLD])⟩

/-- Claim C5 is false as stated: a None-tool tap in capture mode records
`null` as the captured spotlight, not the slide's current (unchanged)
Spotlight.  Concrete counterexample: `exState` has tool None, capture on, and
its only slide currently shows spotlight `exSpot`; the tap appends a record
whose captured spotlight is `none`, which differs from the slide's current
spotlight `some exSpot`. -/
theorem none_tap_records_null_spotlight :
    exState.activeTool = Tool.none ∧
    exState.isCapturing = true ∧
    exState.slides.map Slide.spotlight = [Option.some exSpot] ∧
    (applyCanvasEffects exState 0 99
        (handleCanvasClick 1 false Tool.none true exSlide.transform
          (Point.mk 5 7) 100 100)).clickSequence.map
        (fun r => r.toolState.spotlight) = [Option.none] ∧
    (Option.none : Option SpotlightState) ≠ Option.some exSpot :=
  ⟨rfl, rfl, rfl, rfl, by decide⟩

/-- Claim C5 amended: under tool None with capture mode active, a tap mutates
no slide state and appends exactly one ClickRecord whose captured transform
equals the slide's current (unchanged) transform and whose captured spotlight
is `none` regardless of the slide's current spotlight. -/
theorem none_tap_appends_one_record (s : AppState) (idx : ℕ) (newId : ℤ)
    (sl : Slide) (p : Point) (w h : ℚ)
    (_hsl : s.slides[idx]? = Option.some sl)
    (hcap : s.isCapturing = true) :
    applyCanvasEffects s idx newId
        (handleCanvasClick 1 false Tool.none s.isCapturing sl.transform p w h)
      = { s with clickSequence := s.clickSequence ++
          [ClickRecord.mk newId s.currentSlideIndex p.x p.y
            (ToolState.mk sl.transform Option.none)] } := by
  rw [hcap]
  simp [applyCanvasEffects, handleCanvasClick, handleRecordClick, hcap,
    noEffects]

/-- Witness for the amended C5 at a concrete input: `exState`, its slide
`exSlide`, a tap at (5,7). -/
theorem none_tap_appends_one_record_witness :
    exState.slides[0]? = Option.some exSlide ∧
    exState.isCapturing = true ∧
    applyCanvasEffects exState 0 99
        (handleCanvasClick 1 false Tool.none exState.isCapturing
          exSlide.transform (Point.mk 5 7) 100 100)
      = { exState with clickSequence := exState.clickSequence ++
          [ClickRecord.mk 99 exState.currentSlideIndex (Point.mk 5 7).x
            (Point.mk 5 7).y (ToolState.mk exSlide.transform Option.none)] } :=
  ⟨rfl, rfl,
   none_tap_appends_one_record exState 0 99 exSlide (Point.mk 5 7) 100 100
     rfl rfl⟩

/-- Claim C6 is false as stated: `handleFullReset` does not tear down a
Stepped replay.  Concrete counterexample: resetting from a state whose
stepped-replay flag is on leaves that flag on. -/
theorem resetAll_leaves_stepping_active :
    exStateStepping.isStepping = true ∧
    (handleFullReset exStateStepping 5).isStepping = true :=
  ⟨rfl, rfl⟩

/-- Claim C6 amended: after `resetAll`, the Continuous replay flag is off, the
record sequence is empty, the slide list is a single empty slide with identity
transform and no spotlight, capture mode is off and the tool is None — but the
Stepped replay fields (`isStepping`, `currentStep`) and the replay cursor are
left unchanged. -/
theorem resetAll_state (s : AppState) (newId : ℤ) :
    handleFullReset s newId
      = AppState.mk Tool.none false [createEmptySlide newId] 0 [] false
          s.isStepping s.currentStep s.replayCursor ∧
    (createEmptySlide newId).transform = INITIAL_TRANSFORM ∧
    (createEmptySlide newId).spotlight = Option.none ∧
    (createEmptySlide newId).mediaUrl = Option.none :=
  ⟨rfl, rfl, rfl, rfl⟩

/-- Claim C7 is false as stated: `handleReplay` only checks that no Continuous
replay is running, so it starts a Continuous replay while a Stepped replay is
active.  Concrete counterexample: from `exStateStepping` (stepped replay
active, one record, not playing), `handleReplay` starts playing. -/
theorem startReplay_during_stepping :
    exStateStepping.isStepping = true ∧
    exStateStepping.isPlaying = false ∧
    0 < exStateStepping.clickSequence.length ∧
    (handleReplay exStateStepping).isPlaying = true ∧
    (handleReplay exStateStepping).isStepping = true :=
  ⟨rfl, rfl, by decide, by decide, by decide⟩

/-- Claim C7 amended: `handleReplay` starts only when the record sequence is
non-empty and no Continuous replay is running; `handleStepReplay` starts only
when the record sequence is non-empty and no Stepped replay is running; in
every other case each returns the state unchanged (no exception is modelled:
both are total functions). -/
theorem replay_start_guards (s1 s2 s3 s4 : AppState)
    (h1 : ¬(0 < s1.clickSequence.length ∧ s1.isPlaying = false))
    (h2 : 0 < s2.clickSequence.length ∧ s2.isPlaying = false)
    (h3 : ¬(0 < s3.clickSequence.length ∧ s3.isStepping = false))
    (h4 : 0 < s4.clickSequence.length ∧ s4.isStepping = false) :
    handleReplay s1 = s1 ∧
    handleReplay s2 = { s2 with isPlaying := true } ∧
    handleStepReplay s3 = s3 ∧
    handleStepReplay s4 = { s4 with isStepping := true, currentStep := 0, slides := s4.slides.map resetSlideVisual } := by
  refine ⟨?_, ?_, ?_, ?_⟩
  · unfold handleReplay; rw [if_neg h1]
  · unfold handleReplay; rw [if_pos h2]
  · unfold handleStepReplay; rw [if_neg h3]
  · unfold handleStepReplay; rw [if_pos h4]

/-- Witness for the amended C7 at concrete inputs: an empty sequence blocks
`handleReplay`; a non-empty sequence with no continuous replay starts it (even
from the stepping state, exhibiting the amended guard); an active stepped
replay blocks `handleStepReplay`; a non-empty sequence with no stepped replay
starts stepping. -/
theorem replay_start_guards_witness :
    ¬(0 < exState.clickSequence.length ∧ exState.isPlaying = false) ∧
    (0 < exStateStepping.clickSequence.length ∧
      exStateStepping.isPlaying = false) ∧
    ¬(0 < exStateStepping.clickSequence.length ∧
      exStateStepping.isStepping = false) ∧
    (0 < exSeqState.clickSequence.length ∧ exSeqState.isStepping = false) ∧
    (handleReplay exState = exState ∧
     handleReplay exStateStepping = { exStateStepping with isPlaying := true } ∧
     handleStepReplay exStateStepping = exStateStepping ∧
     handleStepReplay exSeqState = { exSeqState with isStepping := true, currentStep := 0, slides := exSeqState.slides.map resetSlideVisual }) :=
  ⟨by decide, by decide, by decide, by decide,
   replay_start_guards exState exStateStepping exStateStepping exSeqState
     (by decide) (by decide) (by decide) (by decide)⟩

/-- Claim C8: `updateSlideState` is a no-op on an out-of-bounds index; on an
in-bounds index it preserves the list length, leaves every other slide
untouched, and replaces the indexed slide by the merge in which exactly the
fields present in the partial update change (`getD`: an absent field keeps the
slide's value, a present field overwrites it). -/
theorem updateSlide_frame (slides : List Slide) (i j oob : ℕ)
    (u : SlideUpdates) (sl : Slide)
    (hoob : slides.length ≤ oob)
    (hin : slides[i]? = Option.some sl)
    (hj : j ≠ i) :
    updateSlideState slides oob u = slides ∧
    (updateSlideState slides i u).length = slides.length ∧
    (updateSlideState slides i u)[j]? = slides[j]? ∧
    (updateSlideState slides i u)[i]? =
      Option.some (applySlideUpdates sl u) ∧
    (applySlideUpdates sl u).id = u.id.getD sl.id ∧
    (applySlideUpdates sl u).mediaUrl = u.mediaUrl.getD sl.mediaUrl ∧
    (applySlideUpdates sl u).mediaType = u.mediaType.getD sl.mediaType ∧
    (applySlideUpdates sl u).transform = u.transform.getD sl.transform ∧
    (applySlideUpdates sl u).spotlight = u.spotlight.getD sl.spotlight := by
  have hlt : i < slides.length := (List.getElem?_eq_some.mp hin).1
  refine ⟨?_, ?_, ?_, ?_, rfl, rfl, rfl, rfl, rfl⟩
  · unfold updateSlideState
    rw [List.getElem?_eq_none hoob]
  · unfold updateSlideState
    rw [hin]
    exact List.length_set slides i _
  · unfold updateSlideState
    rw [hin]
    exact List.getElem?_set_ne (Ne.symm hj)
  · unfold updateSlideState
    rw [hin]
    exact List.getElem?_set_eq_of_lt _ hlt

/-- Witness for C8 at a concrete input: a two-slide list, update of slide 0
with only a transform, other index 1, out-of-bounds index 7. -/
theorem updateSlide_frame_witness :
    [exSlide, exSlide].length ≤ 7 ∧
    [exSlide, exSlide][0]? = Option.some exSlide ∧
    (1 : ℕ) ≠ 0 ∧
    (updateSlideState [exSlide, exSlide] 7 exUpdates = [exSlide, exSlide] ∧
     (updateSlideState [exSlide, exSlide] 0 exUpdates).length
       = [exSlide, exSlide].length ∧
     (updateSlideState [exSlide, exSlide] 0 exUpdates)[1]?
       = [exSlide, exSlide][1]? ∧
     (updateSlideState [exSlide, exSlide] 0 exUpdates)[0]?
       = Option.some (applySlideUpdates exSlide exUpdates) ∧
     (applySlideUpdates exSlide exUpdates).id = exUpdates.id.getD exSlide.id ∧
     (applySlideUpdates exSlide exUpdates).mediaUrl
       = exUpdates.mediaUrl.getD exSlide.mediaUrl ∧
     (applySlideUpdates exSlide exUpdates).mediaType
       = exUpdates.mediaType.getD exSlide.mediaType ∧
     (applySlideUpdates exSlide exUpdates).transform
       = exUpdates.transform.getD exSlide.transform ∧
     (applySlideUpdates exSlide exUpdates).spotlight
       = exUpdates.spotlight.getD exSlide.spotlight) :=
  ⟨by decide, rfl, by decide,
   updateSlide_frame [exSlide, exSlide] 0 1 7 exUpdates exSlide
     (by decide) rfl (by decide)⟩

/-- Claim C9: `resetAll` is idempotent — resetting a second time yields the
same single-empty-slide state as resetting once (`Date.now()` is modelled by
the explicit id argument; the second call's id is used in both runs). -/
theorem resetAll_idempotent (s : AppState) (id1 id2 : ℤ) :
    handleFullReset (handleFullReset s id1) id2 = handleFullReset s id2 :=
  rfl

/-- Claim C10: while a Continuous replay is playing, a canvas click,
double-click, mouse-down or mouse-move leaves the whole app state — in
particular every slide's transform and spotlight and the click-record
sequence — unchanged, for every tool, capture-mode setting and drag state. -/
theorem playing_blocks_pointer_interactions (detail : ℕ) (tool : Tool)
    (cap dragging : Bool) (tr : CanvasTransform) (p q : Point) (w h : ℚ)
    (s : AppState) (idx : ℕ) (newId : ℤ) :
    applyCanvasEffects s idx newId
        (handleCanvasClick detail true tool cap tr p w h) = s ∧
    applyCanvasEffects s idx newId (handleDoubleClick true) = s ∧
    applyCanvasEffects s idx newId (handleMouseDown true tool p) = s ∧
    applyCanvasEffects s idx newId
        (handleMouseMove dragging tool true q p) = s := by
  refine ⟨?_, ?_, ?_, ?_⟩ <;>
    simp [applyCanvasEffects, handleCanvasClick, handleDoubleClick,
      handleMouseDown, handleMouseMove, noEffects]

end Theorems

end LivePresentation
